import Mathlib

/-!
Verification of the static styling configuration in `src/tailwind.config.js`
of the badgematic repository.  The file is a single exported data literal:
content-scan glob patterns, an empty theme extension point, one plugin
identifier, and two named daisyUI color palettes.  We embed the data literal
directly and prove the specified properties of it.
-/

/-- A named palette: a name together with an association list from semantic
color-role names to hex color value strings, in source order. -/
structure ThemePalette where
  name : String
  colorRoles : List (String × String)
deriving DecidableEq, Repr

/-- The whole configuration object exported by `tailwind.config.js`:
content globs, the (empty) `theme.extend` object, the plugin list, and the
daisyUI theme definitions. -/
structure ThemeConfig where
  content : List String
  themeExtend : List (String × String)
  plugins : List String
  daisyuiThemes : List ThemePalette
deriving DecidableEq, Repr

/-- The `brand-light` palette, transcribed from lines 12-29 of
`src/tailwind.config.js`. -/
def brandLight : ThemePalette :=
  { name := "brand-light"
    colorRoles :=
      [ ("primary",   "#0E2A30")
      , ("secondary", "#AFB3A8")
      , ("accent",    "#FF542E")
      , ("neutral",   "#020F13")
      , ("base-100",  "#F9F9F9")
      , ("base-200",  "#D6DFE0")
      , ("base-300",  "#AFB3A8")
      , ("primary-content",   "#F9F9F9")
      , ("secondary-content", "#020F13")
      , ("accent-content",    "#020F13")
      , ("neutral-content",   "#F9F9F9")
      , ("base-content",      "#020F13")
      , ("info",    "#3A8FB7")
      , ("success", "#27856A")
      , ("warning", "#F59E0B")
      , ("error",   "#DC2626") ] }

/-- The `brand-teal-surface` palette, transcribed from lines 32-49 of
`src/tailwind.config.js`. -/
def brandTealSurface : ThemePalette :=
  { name := "brand-teal-surface"
    colorRoles :=
      [ ("primary",   "#0E2A30")
      , ("secondary", "#AFB3A8")
      , ("accent",    "#FF542E")
      , ("neutral",   "#020F13")
      , ("base-100",  "#0E2A30")
      , ("base-200",  "#0B2125")
      , ("base-300",  "#08191C")
      , ("primary-content",   "#F9F9F9")
      , ("secondary-content", "#020F13")
      , ("accent-content",    "#020F13")
      , ("neutral-content",   "#F9F9F9")
      , ("base-content",      "#F9F9F9")
      , ("info",    "#69B7D1")
      , ("success", "#35A387")
      , ("warning", "#FDBA74")
      , ("error",   "#F87171") ] }

/-- The exported configuration object of `src/tailwind.config.js`. -/
def tailwindConfig : ThemeConfig :=
  { content :=
      [ "./app/templates/**/*.html"
      , "./app/static/**/*.js" ]
    themeExtend := []
    plugins := ["daisyui"]
    daisyuiThemes := [brandLight, brandTealSurface] }

/-- Loading the module: evaluating the export yields the static data literal.
The source has no side effects, so loading is a pure function of no input. -/
def loadConfig : Unit → ThemeConfig :=
  fun _ => tailwindConfig

/-- Look up the color value assigned to a role in a palette. -/
def lookupRole (p : ThemePalette) (r : String) : Option String :=
  (p.colorRoles.find? (fun kv => kv.1 == r)).map (fun kv => kv.2)

/-- Whether a palette defines a value for a role. -/
def definesRole (p : ThemePalette) (r : String) : Bool :=
  (lookupRole p r).isSome

/-- A character is a hexadecimal digit: 0-9, a-f or A-F. -/
def isHexDigitChar (c : Char) : Bool :=
  (('0' ≤ c && c ≤ '9') || ('a' ≤ c && c ≤ 'f') || ('A' ≤ c && c ≤ 'F'))

/-- A string is a valid RRGGBB hex color: a hash sign followed by exactly six
hexadecimal digits. -/
def isHexColor (s : String) : Bool :=
  match s.data with
  | '#' :: rest => rest.length == 6 && rest.all isHexDigitChar
  | _ => false

/-- The role enumeration exactly as the spec sentence words it: every one of
`primary`, `secondary`, `accent`, `neutral`, `base-100`, `base-200`,
`base-300` paired with a `-content` counterpart, plus `info`, `success`,
`warning`, `error`.  Eighteen names in total. -/
def specRequiredRoles : List String :=
  [ "primary", "primary-content"
  , "secondary", "secondary-content"
  , "accent", "accent-content"
  , "neutral", "neutral-content"
  , "base-100", "base-100-content"
  , "base-200", "base-200-content"
  , "base-300", "base-300-content"
  , "info", "success", "warning", "error" ]

/-- The role enumeration the source actually uses: `primary`, `secondary`,
`accent`, `neutral` each with a `-content` counterpart, the base scale
`base-100`, `base-200`, `base-300` with a single shared `base-content`, plus
`info`, `success`, `warning`, `error`.  Sixteen names in total. -/
def requiredRoles : List String :=
  [ "primary", "primary-content"
  , "secondary", "secondary-content"
  , "accent", "accent-content"
  , "neutral", "neutral-content"
  , "base-100", "base-200", "base-300", "base-content"
  , "info", "success", "warning", "error" ]

/-- The eight brand roles shared verbatim between the two palettes. -/
def brandRoles : List String :=
  [ "primary", "secondary", "accent", "neutral"
  , "primary-content", "secondary-content", "accent-content"
  , "neutral-content" ]

/-- C1, counterexample: the claim's enumeration pairs each of `base-100`,
`base-200`, `base-300` with a `-content` counterpart, but the palette
`brand-light` defines no `base-100-content` role, so not every palette
defines every role of that enumeration. -/
theorem c1_counterexample :
    "base-100-content" ∈ specRequiredRoles ∧
    lookupRole brandLight "base-100-content" = none ∧
    ¬ (tailwindConfig.daisyuiThemes.all
        (fun p => specRequiredRoles.all (fun r => definesRole p r)) = true) := by
  refine ⟨by decide, by decide, by decide⟩

/-- C1, amended: every palette in the theme definitions defines every role of
the enumeration actually used by the source, in which only `primary`,
`secondary`, `accent` and `neutral` carry a `-content` counterpart and the
base scale shares a single `base-content` role. -/
theorem c1_amended_complete_role_set :
    tailwindConfig.daisyuiThemes.all
      (fun p => requiredRoles.all (fun r => definesRole p r)) = true := by
  decide

/-- C2: for every entry of `colorRoles` in every palette of the theme
definitions, the value is a hash sign followed by exactly six hexadecimal
digits. -/
theorem c2_all_values_hex :
    tailwindConfig.daisyuiThemes.all
      (fun p => p.colorRoles.all (fun kv => isHexColor kv.2)) = true := by
  decide

/-- C3: the theme definitions contain exactly two palettes, their names are
pairwise distinct, and the names are exactly `brand-light` and
`brand-teal-surface`. -/
theorem c3_two_unique_palette_names :
    tailwindConfig.daisyuiThemes.map (fun p => p.name)
        = ["brand-light", "brand-teal-surface"] ∧
    (tailwindConfig.daisyuiThemes.map (fun p => p.name)).Nodup := by
  refine ⟨by decide, by decide⟩

/-- C4: the content globs are exactly the two-element sequence of the literal
patterns for the HTML templates and the static scripts, and nothing else. -/
theorem c4_content_globs :
    tailwindConfig.content
      = ["./app/templates/**/*.html", "./app/static/**/*.js"] := by
  decide

/-- C5: in the palette named `brand-light`, the `primary` role maps to
`#0E2A30` and the `base-100` role maps to `#F9F9F9`. -/
theorem c5_brand_light_primary_base100 :
    tailwindConfig.daisyuiThemes.find? (fun p => p.name == "brand-light")
        = some brandLight ∧
    lookupRole brandLight "primary" = some "#0E2A30" ∧
    lookupRole brandLight "base-100" = some "#F9F9F9" := by
  refine ⟨by decide, by decide, by decide⟩

/-- C6: in the palette named `brand-teal-surface`, the `base-100` role maps
to `#0E2A30`, the same hex value as the `primary` role of both palettes. -/
theorem c6_teal_surface_base100 :
    tailwindConfig.daisyuiThemes.find? (fun p => p.name == "brand-teal-surface")
        = some brandTealSurface ∧
    lookupRole brandTealSurface "base-100" = some "#0E2A30" ∧
    lookupRole brandTealSurface "primary" = some "#0E2A30" ∧
    lookupRole brandLight "primary" = some "#0E2A30" := by
  refine ⟨by decide, by decide, by decide, by decide⟩

/-- C7: loading the configuration is idempotent and side-effect free:
evaluating the export twice yields structurally identical data, equal in
every field. -/
theorem c7_load_idempotent :
    loadConfig () = loadConfig () ∧
    (loadConfig ()).content = tailwindConfig.content ∧
    (loadConfig ()).themeExtend = tailwindConfig.themeExtend ∧
    (loadConfig ()).plugins = tailwindConfig.plugins ∧
    (loadConfig ()).daisyuiThemes = tailwindConfig.daisyuiThemes := by
  refine ⟨rfl, rfl, rfl, rfl, rfl⟩

/-- C8: the plugin list contains exactly the one daisyui plugin identifier,
and the theme extension point is empty. -/
theorem c8_plugins_and_extend :
    tailwindConfig.plugins = ["daisyui"] ∧
    tailwindConfig.themeExtend = [] := by
  refine ⟨by decide, by decide⟩

/-- C9: for every brand role (`primary`, `secondary`, `accent`, `neutral`
and their `-content` counterparts), the two palettes assign identical hex
values. -/
theorem c9_brand_roles_identical :
    brandRoles.all
      (fun r => lookupRole brandLight r == lookupRole brandTealSurface r
                  && (lookupRole brandLight r).isSome) = true := by
  decide

/-- C10: the two palettes define exactly the same sixteen role keys, in
particular a single `base-content` role and none of `base-100-content`,
`base-200-content` or `base-300-content`. -/
theorem c10_same_sixteen_keys :
    brandLight.colorRoles.map (fun kv => kv.1)
        = brandTealSurface.colorRoles.map (fun kv => kv.1) ∧
    brandLight.colorRoles.length = 16 ∧
    (brandLight.colorRoles.map (fun kv => kv.1)).Nodup ∧
    definesRole brandLight "base-content" = true ∧
    definesRole brandLight "base-100-content" = false ∧
    definesRole brandLight "base-200-content" = false ∧
    definesRole brandLight "base-300-content" = false ∧
    definesRole brandTealSurface "base-content" = true ∧
    definesRole brandTealSurface "base-100-content" = false ∧
    definesRole brandTealSurface "base-200-content" = false ∧
    definesRole brandTealSurface "base-300-content" = false := by
  refine ⟨by decide, by decide, by decide, by decide, by decide, by decide,
    by decide, by decide, by decide, by decide, by decide⟩
